import Mathlib

/-!
Verification development for the klarman_vod media-gateway service
(`src/main_klarman.ts`): a shallow embedding of the cache-aside
retrieval layer, the cache key scheme, the response projectors and the
four route handlers, together with theorems settling the specified
properties against the code.

Conventions of the embedding:
- Promises/exceptions become `Except Unit`; a rejected promise or a
  thrown `TypeError` is `Except.error ()`.
- JavaScript `undefined` for an optional request parameter becomes
  `Option.none`; template-literal interpolation of `undefined` yields
  the literal string `"undefined"` (JS semantics), captured by
  `jsInterp`.
- JS truthiness on strings (only the empty string is falsy) is
  `jsTruthyStr`.
- I/O performed by a handler is recorded in an explicit `Trace`
  (cache reads, producer invocations, cache-write attempts), so that
  claims about "no cache access before rejection" are statable.
-/

namespace Klarman

/-- Serialization used by the cache layer: encode a value to the stored
byte-string, decode a stored byte-string back (`none` on a value that
fails to deserialize). Kept abstract, as the spec does not pin a
format. -/
structure Codec (α : Type) where
  enc : α → String
  dec : String → Option α

/-- Cache Store Adapter: `get(key) -> bytes | absent`. The adapter as a
whole may be absent (cache disabled), modelled by wrapping in `Option`
at use sites. -/
structure Store where
  contents : String → Option String

/-- The I/O trace of one orchestrator invocation: keys read from the
store, number of producer invocations, and attempted cache writes
`(key, payload, ttlSeconds)`. -/
structure Trace where
  gets : List String
  producerCalls : Nat
  sets : List (String × String × Nat)
deriving DecidableEq

/-- The empty trace: no cache access, no upstream call. -/
def emptyTrace : Trace := { gets := [], producerCalls := 0, sets := [] }

/-- Result of the orchestrator: the value (or propagated producer
failure) together with the I/O trace. -/
structure FetchResult (α : Type) where
  result : Except Unit α
  trace : Trace

/-- Modelled from the spec: the Cache-Aside Orchestrator `cache.fetch`
lives in `src/utils/cache.ts`, which is not under `src/`; its behavior
is taken from spec §4.1. With the store absent the producer is invoked
directly and its result returned unmodified with no caching side
effect. Otherwise `store.get(key)` is attempted: a non-empty value that
deserializes is returned without invoking the producer; anything else
is a miss, on which the producer runs, a successful result is written
back under the TTL, and a producer failure propagates with nothing
written. -/
def fetchOrPopulate {α : Type} (store : Option Store) (key : String) (ttlSeconds : Nat)
    (producer : Except Unit α) (codec : Codec α) : FetchResult α :=
  match store with
  | none => { result := producer, trace := { gets := [], producerCalls := 1, sets := [] } }
  | some st =>
    let hit : Option α :=
      match st.contents key with
      | some raw => if raw = "" then none else codec.dec raw
      | none => none
    match hit with
    | some v => { result := Except.ok v, trace := { gets := [key], producerCalls := 0, sets := [] } }
    | none =>
      match producer with
      | Except.ok v =>
        { result := Except.ok v,
          trace := { gets := [key], producerCalls := 1, sets := [(key, codec.enc v, ttlSeconds)] } }
      | Except.error e =>
        { result := Except.error e, trace := { gets := [key], producerCalls := 1, sets := [] } }

/-- JS template-literal interpolation of a possibly-`undefined` string:
`${x}` renders `undefined` as the literal string `"undefined"`. -/
def jsInterp : Option String → String
  | none => "undefined"
  | some s => s

/-- JS truthiness of a possibly-`undefined` string: `undefined` and the
empty string are falsy, every other string is truthy. -/
def jsTruthyStr : Option String → Bool
  | none => false
  | some s => s != ""

/-- Cache key for `/watch` (source: `flixhq:watch:${episodeId}:${mediaId}:${server}`). -/
def watchKey (episodeId mediaId : String) (server : Option String) : String :=
  "flixhq:watch:" ++ episodeId ++ ":" ++ mediaId ++ ":" ++ jsInterp server

/-- Cache key for `/search/:query` (source: `flixhq:${query}:${page}`):
no `search` resource tag, the raw query is the second component. -/
def searchKey (query : String) (page : Option String) : String :=
  "flixhq:" ++ query ++ ":" ++ jsInterp page

/-- Cache key for `/info` (source: `flixhq:info:${id}`). -/
def infoKey (id : String) : String := "flixhq:info:" ++ id

/-! ### Encodings used by the projectors -/

/-- The base64 alphabet (RFC 4648), as used by
`Buffer.toString('base64')`. -/
def b64Alphabet : List Char :=
  "ABCDEFGHIJKLMNOPQRSTUVWXYZabcdefghijklmnopqrstuvwxyz0123456789+/".data

/-- Base64 digit for a 6-bit value. -/
def b64Char (n : Nat) : Char := b64Alphabet.getD n (Char.ofNat 65)

/-- Base64 of a byte sequence, groups of three bytes at a time, with
`=` padding, matching `Buffer.from(bytes).toString('base64')`. -/
def base64Encode : List Nat → String
  | b1 :: b2 :: b3 :: rest =>
    (String.mk [b64Char (b1 / 4), b64Char (b1 % 4 * 16 + b2 / 16),
                b64Char (b2 % 16 * 4 + b3 / 64), b64Char (b3 % 64)])
      ++ base64Encode rest
  | [b1, b2] =>
    String.mk [b64Char (b1 / 4), b64Char (b1 % 4 * 16 + b2 / 16), b64Char (b2 % 16 * 4), Char.ofNat 61]
  | [b1] =>
    String.mk [b64Char (b1 / 4), b64Char (b1 % 4 * 16), Char.ofNat 61, Char.ofNat 61]
  | [] => ""

/-- `getImage` (source lines 42–50): fetch the image bytes at `url`
over HTTP and inline them as a base64 data URI. The network side is
abstracted into the `fetchBytes` oracle; everything after the fetch is
the source's pure suffix. -/
def getImage (fetchBytes : String → List Nat) (url : String) : String :=
  "data:image/png;base64," ++ base64Encode (fetchBytes url)

/-- Characters `encodeURIComponent` leaves unescaped: alphanumerics and
`- _ . ! ~ * ' ( )`. -/
def isUriUnreserved (c : Char) : Bool :=
  (65 ≤ c.toNat && c.toNat ≤ 90) || (97 ≤ c.toNat && c.toNat ≤ 122) ||
  (48 ≤ c.toNat && c.toNat ≤ 57) ||
  c = Char.ofNat 45 || c = Char.ofNat 95 || c = Char.ofNat 46 || c = Char.ofNat 33 ||
  c = Char.ofNat 126 || c = Char.ofNat 42 || c = Char.ofNat 39 ||
  c = Char.ofNat 40 || c = Char.ofNat 41

/-- UTF-8 bytes of one code point. -/
def utf8Bytes (c : Char) : List Nat :=
  let n := c.toNat
  if n < 128 then [n]
  else if n < 2048 then [192 + n / 64, 128 + n % 64]
  else if n < 65536 then [224 + n / 4096, 128 + n / 64 % 64, 128 + n % 64]
  else [240 + n / 262144, 128 + n / 4096 % 64, 128 + n / 64 % 64, 128 + n % 64]

/-- Uppercase hex digit. -/
def hexUpper (n : Nat) : Char :=
  if n < 10 then Char.ofNat (48 + n) else Char.ofNat (55 + n)

/-- One character of `encodeURIComponent` output: kept verbatim when
unreserved, otherwise percent-encoded per UTF-8 byte. -/
def encodeUriChar (c : Char) : List Char :=
  if isUriUnreserved c then [c]
  else (utf8Bytes c).flatMap (fun b => [Char.ofNat 37, hexUpper (b / 16), hexUpper (b % 16)])

/-- JS `encodeURIComponent`. -/
def encodeURIComponent (s : String) : String :=
  String.mk (s.data.flatMap encodeUriChar)

/-! ### Upstream data model (from `@consumet/extensions` as consumed here) -/

/-- The `TvType` variant tag of an upstream record. -/
inductive TvType where
  | movie
  | tvSeries
  | anime
deriving DecidableEq

/-- `Object.values(StreamingServers)` from `@consumet/extensions`: the
accepted values of the `server` query parameter. Every value is a
non-empty lowercase name. -/
def streamingServers : List String :=
  ["asianload", "gogocdn", "streamsb", "mixdrop", "upcloud", "vidcloud",
   "streamtape", "vizcloud", "mycloud", "filemoon", "vidstreaming"]

/-- A trending TV item as consumed by `/main`: the fields the handler
reads, with the source's non-null assertions (`item.image!`,
`item.season!`, `item.latestEpisode!`) reflected as plain strings. -/
structure TrendingTvItem where
  id : String
  title : String
  image : String
  season : String
  latestEpisode : String
deriving DecidableEq

/-- A trending movie item as consumed by `/main`. -/
structure TrendingMovieItem where
  id : String
  title : String
  image : Option String
  releaseDate : Option String
  duration : Option String
deriving DecidableEq

/-- One candidate stream source (`IVideo`): the handler reads only
`url`. -/
structure StreamSource where
  url : String
deriving DecidableEq

/-- One subtitle track, passed through untouched by `/watch`. -/
structure Subtitle where
  url : String
  lang : String
deriving DecidableEq

/-- Upstream result of `fetchEpisodeSources`. -/
structure StreamResult where
  sources : List StreamSource
  subtitles : List Subtitle
deriving DecidableEq

/-- One upstream episode record as consumed by `/info`. -/
structure Episode where
  id : String
  title : Option String
  number : Option Nat
  season : Option Nat
deriving DecidableEq

/-- Upstream result of `fetchMediaInfo` (`IMovieInfo`), restricted to
the fields `/info` reads; `episodes` may be `undefined` upstream, so it
is optional despite the source's `res.episodes!` assertion. -/
structure MediaInfo where
  id : String
  title : String
  cover : Option String
  image : Option String
  description : Option String
  mediaType : TvType
  releaseDate : Option String
  duration : Option String
  rating : Option String
  episodes : Option (List Episode)
deriving DecidableEq

/-- One upstream search result item (`IMovieResult`) as consumed by
`/search/:query`. -/
structure SearchItem where
  id : String
  title : String
  image : Option String
  releaseDate : Option String
  duration : Option String
  seasons : Option Nat
  itemType : TvType
deriving DecidableEq

/-- Upstream result of `search(query, page)`. -/
structure SearchResult where
  results : List SearchItem
  currentPage : Nat
  hasNextPage : Bool
deriving DecidableEq

/-! ### Response projectors -/

/-- `.replace(/SS |S /g, "")` on the season label: scan left to right,
removing `"SS "` (tried first, as the left alternative) or `"S "` at
each position. -/
def stripSeasonChars : List Char → List Char
  | 'S' :: 'S' :: ' ' :: rest => stripSeasonChars rest
  | 'S' :: ' ' :: rest => stripSeasonChars rest
  | c :: rest => c :: stripSeasonChars rest
  | [] => []

/-- Season-label normalization used by the trending-TV projection. -/
def stripSeason (s : String) : String := String.mk (stripSeasonChars s.data)

/-- `.replace(/EP |EPS /g, "")` on the episode label: removes `"EP "`
(left alternative first) or `"EPS "` at each position. -/
def stripEpisodeChars : List Char → List Char
  | 'E' :: 'P' :: ' ' :: rest => stripEpisodeChars rest
  | 'E' :: 'P' :: 'S' :: ' ' :: rest => stripEpisodeChars rest
  | c :: rest => c :: stripEpisodeChars rest
  | [] => []

/-- Episode-label normalization used by the trending-TV projection. -/
def stripEpisode (s : String) : String := String.mk (stripEpisodeChars s.data)

/-- A projected trending-TV item (the `/main` TV section entry). -/
structure FormattedTvItem where
  id : String
  title : String
  image : String
  latest_season : String
  latest_episode : String
  type : String
  info_url : String
deriving DecidableEq

/-- A projected trending-movie item (the `/main` movies section entry). -/
structure FormattedMovieItem where
  id : String
  title : String
  image : Option String
  release_date : Option String
  duration : Option String
  type : String
  info_url : String
deriving DecidableEq

/-- Projection of one trending-TV item (source lines 110–120). The
`image` field is the awaited result of `getImage(item.image!)`; that
network fetch is abstracted as the `img` oracle, which may fail (a
rejected axios promise). -/
def formatTvItem (img : String → Except Unit String) (baseUrl : String)
    (item : TrendingTvItem) : Except Unit FormattedTvItem :=
  match img item.image with
  | Except.error e => Except.error e
  | Except.ok b64 =>
    Except.ok
      { id := item.id
        title := item.title
        image := b64
        latest_season := stripSeason item.season
        latest_episode := stripEpisode item.latestEpisode
        type := "series"
        info_url := baseUrl ++ "/info?id=" ++ item.id }

/-- `Promise.all` over the trending-TV projection: the whole list
rejects if any image fetch rejects. -/
def formatTvItems (img : String → Except Unit String) (baseUrl : String) :
    List TrendingTvItem → Except Unit (List FormattedTvItem)
  | [] => Except.ok []
  | item :: rest =>
    match formatTvItem img baseUrl item with
    | Except.error e => Except.error e
    | Except.ok f =>
      match formatTvItems img baseUrl rest with
      | Except.error e => Except.error e
      | Except.ok fs => Except.ok (f :: fs)

/-- Projection of one trending-movie item (source lines 142–152). -/
def formatMovieItem (baseUrl : String) (item : TrendingMovieItem) : FormattedMovieItem :=
  { id := item.id
    title := item.title
    image := item.image
    release_date := item.releaseDate
    duration := item.duration
    type := "movie"
    info_url := baseUrl ++ "/info?id=" ++ item.id }

/-- The `episodes` field of an `/info` response: a single object with
one `watch_url` for movies, an array for series. -/
inductive EpisodesField where
  | single (watch_url : String)
  | list (items : List (Option String × Option Nat × Option Nat × String))
deriving DecidableEq

/-- The `/info` response body. -/
structure InfoResponse where
  id : String
  title : String
  cover : Option String
  image : Option String
  description : Option String
  type : String
  release_date : Option String
  duration : Option String
  rating : Option String
  episodes : EpisodesField
deriving DecidableEq

/-- Synthesized `watch_url` used by the `/info` projection. -/
def watchUrlFor (baseUrl episodeId mediaId : String) : String :=
  baseUrl ++ "/watch?episodeId=" ++ episodeId ++ "&mediaId=" ++ mediaId

/-- The `/info` projection (source lines 190–227). If the record's type
equals the movie tag, the movie shape is built from `res.episodes![0].id`;
with `episodes` absent or empty that access throws a `TypeError`
(`Except.error`). Otherwise the series shape maps every episode, and
`res.episodes!.map` throws when `episodes` is absent. -/
def formatInfo (baseUrl : String) (res : MediaInfo) : Except Unit InfoResponse :=
  if res.mediaType = TvType.movie then
    match res.episodes with
    | some (e0 :: _) =>
      Except.ok
        { id := res.id, title := res.title, cover := res.cover, image := res.image
          description := res.description, type := "movie"
          release_date := res.releaseDate, duration := res.duration, rating := res.rating
          episodes := EpisodesField.single (watchUrlFor baseUrl e0.id res.id) }
    | _ => Except.error ()
  else
    match res.episodes with
    | some eps =>
      Except.ok
        { id := res.id, title := res.title, cover := res.cover, image := res.image
          description := res.description, type := "series"
          release_date := res.releaseDate, duration := res.duration, rating := res.rating
          episodes := EpisodesField.list (eps.map (fun it =>
            (it.title, it.number, it.season, watchUrlFor baseUrl it.id res.id))) }
    | none => Except.error ()

/-- `res.sources.slice(-1)[0]`: the singleton slice holding the last
element, then its head; `none` on an empty list (where the subsequent
`.url` access throws). -/
def sliceLastHead {α : Type} (l : List α) : Option α :=
  (l.drop (l.length - 1)).head?

/-- The `/watch` playback-URL selection (source line 260). -/
def selectPlaybackUrl (sources : List StreamSource) : Option String :=
  (sliceLastHead sources).map StreamSource.url

/-- A projected search item: movie shape or series shape
(source lines 284–305). -/
inductive SearchMediaItem where
  | movie (id title : String) (image release_date duration : Option String) (info_url : String)
  | series (id title : String) (image : Option String) (seasons : Option Nat) (info_url : String)
deriving DecidableEq

/-- Projection of one search result item. -/
def formatSearchItem (baseUrl : String) (item : SearchItem) : SearchMediaItem :=
  if item.itemType = TvType.movie then
    SearchMediaItem.movie item.id item.title item.image item.releaseDate item.duration
      (baseUrl ++ "/info?id=" ++ item.id)
  else
    SearchMediaItem.series item.id item.title item.image item.seasons
      (baseUrl ++ "/info?id=" ++ item.id)

/-- The base search URL shared by both pagination links: the query term
is percent-encoded. -/
def searchBaseUrl (baseUrl query : String) : String :=
  baseUrl ++ "/search/" ++ encodeURIComponent query

/-- `next_page_url` (source lines 307–309): present exactly when
`hasNextPage`, pointing at `currentPage + 1`; the page number is
rendered as a plain decimal (`parseInt(currentPage.toString()) + 1`),
not percent-encoded. -/
def nextPageUrl (baseUrl query : String) (currentPage : Nat) (hasNextPage : Bool) :
    Option String :=
  if hasNextPage then
    some (searchBaseUrl baseUrl query ++ "?page=" ++ toString (currentPage + 1))
  else none

/-- `prev_page_url` (source lines 311–313): present exactly when
`currentPage > 1`, pointing at `currentPage - 1`. -/
def prevPageUrl (baseUrl query : String) (currentPage : Nat) : Option String :=
  if currentPage > 1 then
    some (searchBaseUrl baseUrl query ++ "?page=" ++ toString (currentPage - 1))
  else none

/-! ### Route handlers -/

/-- The `/watch` response body. -/
structure WatchResponse where
  url : String
  subtitles : List Subtitle
deriving DecidableEq

/-- The `/search/:query` response body. -/
structure SearchResponse where
  next_page_url : Option String
  prev_page_url : Option String
  media_items : List SearchMediaItem
deriving DecidableEq

/-- The `/main` response body: two titled sections. -/
structure MainResponse where
  tvSectionTitle : String
  tvItems : List FormattedTvItem
  moviesSectionTitle : String
  movieItems : List FormattedMovieItem
deriving DecidableEq

/-- A JSON body sent by some handler. -/
inductive Body where
  | message (msg : String)
  | infoBody (r : InfoResponse)
  | watchBody (r : WatchResponse)
  | searchBody (r : SearchResponse)
  | mainBody (r : MainResponse)
deriving DecidableEq

/-- An HTTP response: status code and body. -/
structure Response where
  status : Nat
  body : Body
deriving DecidableEq

/-- What a handler does with a request: send a response, or let an
uncaught rejection escape to the framework (no `try`/`catch` in the
handler). -/
inductive HandlerOutcome where
  | respond (r : Response)
  | raise
deriving DecidableEq

/-- Fixed 500 message of the `/info` handler. -/
def infoErrMsg : String :=
  "Something went wrong. Please try again later. or contact the developers."

/-- Fixed 500 message of the `/watch` handler. -/
def watchErrMsg : String := "Something went wrong. Please try again later."

/-- The `/info` handler (source lines 174–236): reject a missing `id`
with 400 before any I/O; otherwise resolve through the orchestrator
under `flixhq:info:<id>` with a 3-hour TTL, project, and answer 200;
any failure inside the `try` block (orchestrator or projection) is
caught and answered 500 with the fixed message. -/
def infoHandler (baseUrl : String) (store : Option Store) (codec : Codec MediaInfo)
    (id : Option String) (producer : Except Unit MediaInfo) : HandlerOutcome × Trace :=
  match id with
  | none => (HandlerOutcome.respond { status := 400, body := Body.message "id is required" }, emptyTrace)
  | some i =>
    let f := fetchOrPopulate store (infoKey i) (60 * 60 * 3) producer codec
    match f.result with
    | Except.error _ =>
      (HandlerOutcome.respond { status := 500, body := Body.message infoErrMsg }, f.trace)
    | Except.ok res =>
      match formatInfo baseUrl res with
      | Except.error _ =>
        (HandlerOutcome.respond { status := 500, body := Body.message infoErrMsg }, f.trace)
      | Except.ok r =>
        (HandlerOutcome.respond { status := 200, body := Body.infoBody r }, f.trace)

/-- The `/watch` handler (source lines 238–270): reject missing
`episodeId`, then missing `mediaId`, each with 400 before any I/O; a
*truthy* `server` outside `Object.values(StreamingServers)` is rejected
with 400 (an empty-string `server` is falsy and skips the check);
otherwise resolve through the orchestrator under the `/watch` key with
a 30-minute TTL, select the last source's URL, and answer 200; failures
inside the `try` block (orchestrator, or `.url` on an empty source
list) are caught and answered 500 with the fixed message. -/
def watchHandler (store : Option Store) (codec : Codec StreamResult)
    (episodeId mediaId server : Option String) (producer : Except Unit StreamResult) :
    HandlerOutcome × Trace :=
  match episodeId with
  | none => (HandlerOutcome.respond { status := 400, body := Body.message "episodeId is required" }, emptyTrace)
  | some e =>
    match mediaId with
    | none => (HandlerOutcome.respond { status := 400, body := Body.message "mediaId is required" }, emptyTrace)
    | some m =>
      if jsTruthyStr server && !(streamingServers.contains (jsInterp server)) then
        (HandlerOutcome.respond { status := 400, body := Body.message "Invalid server query" }, emptyTrace)
      else
        let f := fetchOrPopulate store (watchKey e m server) (60 * 30) producer codec
        match f.result with
        | Except.error _ =>
          (HandlerOutcome.respond { status := 500, body := Body.message watchErrMsg }, f.trace)
        | Except.ok res =>
          match selectPlaybackUrl res.sources with
          | none =>
            (HandlerOutcome.respond { status := 500, body := Body.message watchErrMsg }, f.trace)
          | some u =>
            (HandlerOutcome.respond
              { status := 200, body := Body.watchBody { url := u, subtitles := res.subtitles } },
             f.trace)

/-- The `/search/:query` handler (source lines 272–320): no parameter
validation and **no** `try`/`catch` — a producer failure propagates to
the framework (`HandlerOutcome.raise`). On success the items are
projected and the pagination links built from `currentPage` and
`hasNextPage`. -/
def searchHandler (baseUrl : String) (store : Option Store) (codec : Codec SearchResult)
    (query : String) (page : Option String) (producer : Except Unit SearchResult) :
    HandlerOutcome × Trace :=
  let f := fetchOrPopulate store (searchKey query page) (60 * 60 * 6) producer codec
  match f.result with
  | Except.error _ => (HandlerOutcome.raise, f.trace)
  | Except.ok res =>
    (HandlerOutcome.respond
      { status := 200
        body := Body.searchBody
          { next_page_url := nextPageUrl baseUrl query res.currentPage res.hasNextPage
            prev_page_url := prevPageUrl baseUrl query res.currentPage
            media_items := res.results.map (formatSearchItem baseUrl) } },
     f.trace)

/-- The I/O trace of one `/main` request: the trending-TV resolution
(upstream calls and cache reads it performs) and the trending-movies
orchestrator trace. -/
structure MainTrace where
  tvProducerCalls : Nat
  tvGets : List String
  movies : Trace
deriving DecidableEq

/-- The `/main` handler (source lines 100–172): trending TV is fetched
**directly** from upstream (line 108; the cache-aside call is commented
out), so the TV resolution never touches the store; each TV item's
image is fetched and inlined during projection; trending movies then go
through the orchestrator under `flixhq:trending:movies` with a 3-hour
TTL. There is **no** `try`/`catch`: any rejection (TV producer, image
fetch, movies orchestrator) escapes to the framework. -/
def mainHandler (baseUrl : String) (store : Option Store)
    (tvProducer : Except Unit (List TrendingTvItem)) (img : String → Except Unit String)
    (moviesProducer : Except Unit (List TrendingMovieItem))
    (codec : Codec (List TrendingMovieItem)) : HandlerOutcome × MainTrace :=
  match tvProducer with
  | Except.error _ =>
    (HandlerOutcome.raise, { tvProducerCalls := 1, tvGets := [], movies := emptyTrace })
  | Except.ok tv =>
    match formatTvItems img baseUrl tv with
    | Except.error _ =>
      (HandlerOutcome.raise, { tvProducerCalls := 1, tvGets := [], movies := emptyTrace })
    | Except.ok tvFormatted =>
      let f := fetchOrPopulate store "flixhq:trending:movies" (60 * 60 * 3) moviesProducer codec
      match f.result with
      | Except.error _ =>
        (HandlerOutcome.raise, { tvProducerCalls := 1, tvGets := [], movies := f.trace })
      | Except.ok movies =>
        (HandlerOutcome.respond
          { status := 200
            body := Body.mainBody
              { tvSectionTitle := "Trending TV Series"
                tvItems := tvFormatted
                moviesSectionTitle := "Trending Movies"
                movieItems := movies.map (formatMovieItem baseUrl) } },
         { tvProducerCalls := 1, tvGets := [], movies := f.trace })

/-! ### Concrete sample data (used by witnesses and counterexamples) -/

/-- A sample trending-TV item with prefixed season/episode labels. -/
def demoTvItem : TrendingTvItem :=
  { id := "tv-1", title := "Show", image := "http://img/1.png",
    season := "SS 4", latestEpisode := "EPS 9" }

/-- A sample codec for trending-TV lists that decodes every stored
payload. -/
def demoTvCodec : Codec (List TrendingTvItem) :=
  { enc := fun _ => "cached-tv", dec := fun _ => some [demoTvItem] }

/-- A sample codec for trending-movie lists. -/
def demoMoviesCodec : Codec (List TrendingMovieItem) :=
  { enc := fun _ => "enc", dec := fun _ => some [] }

/-- A sample codec for media-info records. -/
def demoInfoCodec : Codec MediaInfo :=
  { enc := fun _ => "enc", dec := fun _ => none }

/-- A sample codec for stream results. -/
def demoStreamCodec : Codec StreamResult :=
  { enc := fun _ => "enc", dec := fun _ => none }

/-- A sample codec for search results. -/
def demoSearchCodec : Codec SearchResult :=
  { enc := fun _ => "enc", dec := fun _ => none }

/-- A store that holds a non-empty value under the shared trending-TV
key and nothing else. -/
def demoStore : Store :=
  { contents := fun k => if k = "flixhq:trending:tv" then some "cached-tv" else none }

/-- An image oracle that always succeeds with a fixed data URI. -/
def demoImg : String → Except Unit String := fun _ => Except.ok "data:image/png;base64,AA=="

/-- A sample episode record. -/
def demoEp : Episode := { id := "ep-1", title := none, number := none, season := none }

/-- A sample movie-typed media-info record with one episode. -/
def demoMovieInfo : MediaInfo :=
  { id := "movie-42", title := "M", cover := none, image := none, description := none,
    mediaType := TvType.movie, releaseDate := none, duration := none, rating := none,
    episodes := some [demoEp] }

/-- A sample movie-typed media-info record whose episode list is empty. -/
def demoMovieNoEps : MediaInfo :=
  { id := "movie-42", title := "M", cover := none, image := none, description := none,
    mediaType := TvType.movie, releaseDate := none, duration := none, rating := none,
    episodes := some [] }

/-- A sample upstream stream result with a single source. -/
def demoStreamResult : StreamResult :=
  { sources := [{ url := "http://cdn/v.m3u8" }], subtitles := [] }

/-! ## Theorems -/

/-- C2: with no cache store configured, `fetchOrPopulate` invokes the
producer exactly once, returns its result unmodified (equal to a direct
producer call), and performs no caching side effect — no cache read and
no cache write — for every key, TTL, producer and codec. -/
theorem c2_cache_disabled_passthrough {α : Type} (key : String) (ttlSeconds : Nat)
    (producer : Except Unit α) (codec : Codec α) :
    fetchOrPopulate none key ttlSeconds producer codec =
      { result := producer, trace := { gets := [], producerCalls := 1, sets := [] } } := rfl

/-- C3 counterexample: with no `server` parameter the `/watch` key's
final component is the literal string `"undefined"` (JS interpolation
of `undefined`), not empty, and likewise for the `/search` key's page
component. -/
theorem c3_key_final_component_counterexample :
    watchKey "ep-1" "movie-42" none ≠ "flixhq:watch:ep-1:movie-42:" ∧
    watchKey "ep-1" "movie-42" none = "flixhq:watch:ep-1:movie-42:undefined" ∧
    searchKey "foo" none ≠ "flixhq:foo:" ∧
    searchKey "foo" none = "flixhq:foo:undefined" := by decide

/-- C3 amended: the `/watch` cache key is
`flixhq:watch:<episodeId>:<mediaId>:<server>` with final component the
literal string `"undefined"` when no server parameter is supplied, and
the `/search` key is `flixhq:<rawQuery>:<page>` with no `search`
resource tag and final component `"undefined"` when no page parameter
is supplied. -/
theorem c3_key_scheme (e m q s p : String) :
    watchKey e m (some s) = "flixhq:watch:" ++ e ++ ":" ++ m ++ ":" ++ s ∧
    watchKey e m none = "flixhq:watch:" ++ e ++ ":" ++ m ++ ":" ++ "undefined" ∧
    searchKey q (some p) = "flixhq:" ++ q ++ ":" ++ p ∧
    searchKey q none = "flixhq:" ++ q ++ ":" ++ "undefined" :=
  ⟨rfl, rfl, rfl, rfl⟩

/-- `slice(-1)[0]` on a list with a known last element yields that
element. -/
lemma sliceLastHead_append {α : Type} (l : List α) (x : α) :
    sliceLastHead (l ++ [x]) = some x := by
  unfold sliceLastHead
  have hlen : (l ++ [x]).length - 1 = l.length := by
    simp [List.length_append]
  rw [hlen, List.drop_left]
  rfl

/-- C4: for every non-empty upstream source sequence the `/watch`
playback URL is the URL of the last element — in particular, a `/watch`
request whose producer returns sources `ss ++ [x]` is answered 200 with
`x`'s URL. -/
theorem c4_last_source_selected (ss : List StreamSource) (x : StreamSource) :
    selectPlaybackUrl (ss ++ [x]) = some x.url ∧
    ∀ (subs : List Subtitle) (codec : Codec StreamResult) (e m : String),
      (watchHandler none codec (some e) (some m) none
          (Except.ok { sources := ss ++ [x], subtitles := subs })).1 =
        HandlerOutcome.respond
          { status := 200, body := Body.watchBody { url := x.url, subtitles := subs } } := by
  have hsel : selectPlaybackUrl (ss ++ [x]) = some x.url := by
    unfold selectPlaybackUrl
    rw [sliceLastHead_append]
    rfl
  refine ⟨hsel, ?_⟩
  intro subs codec e m
  simp [watchHandler, jsTruthyStr, fetchOrPopulate, hsel]

/-- C5: for every upstream search result with `currentPage ≥ 1`, the
`next_page_url` is the base search URL (query percent-encoded) with
plain-decimal page `currentPage + 1` exactly when `hasNextPage`, else
`none`; the `prev_page_url` points at `currentPage - 1` exactly when
`currentPage > 1`, else `none`. -/
theorem c5_pagination_links (baseUrl q : String) (cp : Nat) (_h : 1 ≤ cp) :
    (∀ hnp : Bool, nextPageUrl baseUrl q cp hnp =
      if hnp then
        some (baseUrl ++ "/search/" ++ encodeURIComponent q ++ "?page=" ++ toString (cp + 1))
      else none) ∧
    prevPageUrl baseUrl q cp =
      (if 1 < cp then
        some (baseUrl ++ "/search/" ++ encodeURIComponent q ++ "?page=" ++ toString (cp - 1))
      else none) :=
  ⟨fun _ => rfl, rfl⟩

/-- Witness for C5 at the spec's boundary examples: page 3 with a next
page links pages 4 and 2 with the query `"foo bar"` percent-encoded;
page 1 with no next page yields `none` for both links. -/
theorem c5_pagination_links_witness :
    nextPageUrl "http://base" "foo bar" 3 true = some "http://base/search/foo%20bar?page=4" ∧
    prevPageUrl "http://base" "foo bar" 3 = some "http://base/search/foo%20bar?page=2" ∧
    nextPageUrl "http://base" "foo bar" 1 false = none ∧
    prevPageUrl "http://base" "foo bar" 1 = none := by
  have h3 := c5_pagination_links "http://base" "foo bar" 3 (by decide)
  have h1 := c5_pagination_links "http://base" "foo bar" 1 (by decide)
  refine ⟨?_, ?_, ?_, ?_⟩
  · rw [h3.1 true]; decide
  · rw [h3.2]; decide
  · rw [h1.1 false]; decide
  · rw [h1.2]; decide

/-- C6: the `/info` projection branches on the record's declared type:
the movie variant yields the movie shape whose `episodes` field is a
single object carrying one `watch_url` built from the first episode
record's id (no episodes array); every other variant yields the series
shape with one `watch_url` per episode in upstream episode order. -/
theorem c6_info_variant_projection (baseUrl : String) (res : MediaInfo) :
    (∀ e0 rest, res.mediaType = TvType.movie → res.episodes = some (e0 :: rest) →
      ∃ r, formatInfo baseUrl res = Except.ok r ∧ r.type = "movie" ∧
        r.episodes = EpisodesField.single (watchUrlFor baseUrl e0.id res.id)) ∧
    (res.mediaType ≠ TvType.movie → ∀ eps, res.episodes = some eps →
      ∃ r, formatInfo baseUrl res = Except.ok r ∧ r.type = "series" ∧
        r.episodes = EpisodesField.list (eps.map (fun it =>
          (it.title, it.number, it.season, watchUrlFor baseUrl it.id res.id)))) := by
  constructor
  · intro e0 rest hm he
    have hf : formatInfo baseUrl res = Except.ok
        { id := res.id, title := res.title, cover := res.cover, image := res.image,
          description := res.description, type := "movie",
          release_date := res.releaseDate, duration := res.duration, rating := res.rating,
          episodes := EpisodesField.single (watchUrlFor baseUrl e0.id res.id) } := by
      simp [formatInfo, hm, he]
    exact ⟨_, hf, rfl, rfl⟩
  · intro hm eps he
    have hf : formatInfo baseUrl res = Except.ok
        { id := res.id, title := res.title, cover := res.cover, image := res.image,
          description := res.description, type := "series",
          release_date := res.releaseDate, duration := res.duration, rating := res.rating,
          episodes := EpisodesField.list (eps.map (fun it =>
            (it.title, it.number, it.season, watchUrlFor baseUrl it.id res.id))) } := by
      simp [formatInfo, hm, he]
    exact ⟨_, hf, rfl, rfl⟩

/-- Witness for C6 at the spec's scenario: a movie-typed record with
media id `movie-42` and single episode id `ep-1` projects a single
`episodes.watch_url` ending in `episodeId=ep-1&mediaId=movie-42`. -/
theorem c6_info_variant_projection_witness :
    (formatInfo "http://base" demoMovieInfo).map InfoResponse.episodes =
      Except.ok (EpisodesField.single "http://base/watch?episodeId=ep-1&mediaId=movie-42") := by
  obtain ⟨r, hr, _, hep⟩ :=
    (c6_info_variant_projection "http://base" demoMovieInfo).1 demoEp [] rfl rfl
  rw [hr]
  simp only [Except.map, hep]
  rfl

/-- C7 counterexample: an empty-string `server` value is outside the
accepted set, yet JS truthiness skips the validation — the request is
not rejected with 400 but answered 200 after invoking the upstream
producer. -/
theorem c7_empty_server_counterexample :
    streamingServers.contains "" = false ∧
    (watchHandler none demoStreamCodec (some "ep-1") (some "movie-42") (some "")
        (Except.ok demoStreamResult)).1 =
      HandlerOutcome.respond
        { status := 200,
          body := Body.watchBody { url := "http://cdn/v.m3u8", subtitles := [] } } ∧
    (watchHandler none demoStreamCodec (some "ep-1") (some "movie-42") (some "")
        (Except.ok demoStreamResult)).2.producerCalls = 1 := by decide

/-- C7 amended: a `/info` request with no `id` and a `/watch` request
missing `episodeId` or `mediaId` are rejected with 400 and the naming
message before any cache access or upstream call, and a `/watch`
request whose `server` value is **non-empty** and outside the accepted
set is rejected with 400 `Invalid server query` before any I/O (an
empty-string `server` is falsy in JS and skips the check). -/
theorem c7_param_validation (baseUrl : String) (store : Option Store)
    (codecI : Codec MediaInfo) (codecW : Codec StreamResult)
    (pI : Except Unit MediaInfo) (pW : Except Unit StreamResult) (m s : Option String) :
    infoHandler baseUrl store codecI none pI =
      (HandlerOutcome.respond { status := 400, body := Body.message "id is required" },
        emptyTrace) ∧
    watchHandler store codecW none m s pW =
      (HandlerOutcome.respond { status := 400, body := Body.message "episodeId is required" },
        emptyTrace) ∧
    (∀ e, watchHandler store codecW (some e) none s pW =
      (HandlerOutcome.respond { status := 400, body := Body.message "mediaId is required" },
        emptyTrace)) ∧
    (∀ e m' sv, sv ≠ "" → sv ∉ streamingServers →
      watchHandler store codecW (some e) (some m') (some sv) pW =
        (HandlerOutcome.respond { status := 400, body := Body.message "Invalid server query" },
          emptyTrace)) := by
  refine ⟨rfl, rfl, fun e => rfl, ?_⟩
  intro e m' sv h1 h2
  simp [watchHandler, jsTruthyStr, jsInterp, h1]
  intro hmem
  exact absurd hmem h2

/-- Witness for C7: a `/watch` request with the unaccepted non-empty
server value `bogus` is rejected with 400 `Invalid server query` and an
empty I/O trace. -/
theorem c7_param_validation_witness :
    watchHandler none demoStreamCodec (some "ep-1") (some "movie-42") (some "bogus")
        (Except.ok demoStreamResult) =
      (HandlerOutcome.respond { status := 400, body := Body.message "Invalid server query" },
        emptyTrace) :=
  (c7_param_validation "http://base" none demoInfoCodec demoStreamCodec
      (Except.ok demoMovieInfo) (Except.ok demoStreamResult) none none).2.2.2
    "ep-1" "movie-42" "bogus" (by decide) (by decide)

/-- C10: a movie-typed `/info` record whose episode list is absent or
empty makes the movie projection's first-episode access throw; the
handler catches it and answers the generic 500 — never a 200 with a
partially-built movie body. -/
theorem c10_movie_empty_episodes_500 (baseUrl id : String) (codec : Codec MediaInfo)
    (res : MediaInfo) (hm : res.mediaType = TvType.movie)
    (he : res.episodes = none ∨ res.episodes = some []) :
    (infoHandler baseUrl none codec (some id) (Except.ok res)).1 =
      HandlerOutcome.respond { status := 500, body := Body.message infoErrMsg } := by
  rcases he with he | he <;>
    simp [infoHandler, fetchOrPopulate, formatInfo, hm, he]

/-- Witness for C10: the movie-typed record `movie-42` with an empty
episode list is answered 500 with the fixed `/info` message. -/
theorem c10_movie_empty_episodes_500_witness :
    (infoHandler "http://base" none demoInfoCodec (some "movie-42")
        (Except.ok demoMovieNoEps)).1 =
      HandlerOutcome.respond { status := 500, body := Body.message infoErrMsg } :=
  c10_movie_empty_episodes_500 "http://base" "movie-42" demoInfoCodec demoMovieNoEps
    rfl (Or.inr rfl)

/-- C1 counterexample: even with the store holding a value under
`flixhq:trending:tv` that the trending-TV codec deserializes, a `/main`
request never reads the store for the TV list and invokes the
`fetchTrendingTvShows` producer anyway. -/
theorem c1_main_tv_cache_counterexample :
    demoTvCodec.dec "cached-tv" = some [demoTvItem] ∧
    demoStore.contents "flixhq:trending:tv" = some "cached-tv" ∧
    (mainHandler "http://base" (some demoStore) (Except.ok [demoTvItem]) demoImg
        (Except.ok []) demoMoviesCodec).2.tvProducerCalls = 1 ∧
    (mainHandler "http://base" (some demoStore) (Except.ok [demoTvItem]) demoImg
        (Except.ok []) demoMoviesCodec).2.tvGets = [] := by decide

/-- C1 amended: on every `/main` request the trending-TV list is
fetched directly from the upstream producer — exactly one producer
invocation and no cache read, whatever the store holds — while the
trending-movies list (once the TV stage succeeded) is resolved through
the cache-aside orchestrator under the single shared key
`flixhq:trending:movies`. -/
theorem c1_main_trending_resolution (baseUrl : String) (store : Option Store)
    (tvP : Except Unit (List TrendingTvItem)) (img : String → Except Unit String)
    (movP : Except Unit (List TrendingMovieItem)) (codec : Codec (List TrendingMovieItem)) :
    (mainHandler baseUrl store tvP img movP codec).2.tvProducerCalls = 1 ∧
    (mainHandler baseUrl store tvP img movP codec).2.tvGets = [] ∧
    (∀ tv fm, tvP = Except.ok tv → formatTvItems img baseUrl tv = Except.ok fm →
      (mainHandler baseUrl store tvP img movP codec).2.movies =
        (fetchOrPopulate store "flixhq:trending:movies" (60 * 60 * 3) movP codec).trace) := by
  refine ⟨?_, ?_, ?_⟩
  · cases tvP with
    | error e => rfl
    | ok tv =>
      cases hf : formatTvItems img baseUrl tv with
      | error e => simp [mainHandler, hf]
      | ok fs =>
        cases hr : (fetchOrPopulate store "flixhq:trending:movies" (60 * 60 * 3) movP codec).result with
        | error e => simp [mainHandler, hf, hr]
        | ok v => simp [mainHandler, hf, hr]
  · cases tvP with
    | error e => rfl
    | ok tv =>
      cases hf : formatTvItems img baseUrl tv with
      | error e => simp [mainHandler, hf]
      | ok fs =>
        cases hr : (fetchOrPopulate store "flixhq:trending:movies" (60 * 60 * 3) movP codec).result with
        | error e => simp [mainHandler, hf, hr]
        | ok v => simp [mainHandler, hf, hr]
  · intro tv fm htv hf
    subst htv
    cases hr : (fetchOrPopulate store "flixhq:trending:movies" (60 * 60 * 3) movP codec).result with
    | error e => simp [mainHandler, hf, hr]
    | ok v => simp [mainHandler, hf, hr]

/-- Witness for C1 (amended): on a concrete cache-disabled `/main`
request whose TV stage succeeds, the movies trace is exactly the
orchestrator's trace at key `flixhq:trending:movies`. -/
theorem c1_main_trending_resolution_witness :
    (mainHandler "http://base" none (Except.ok [demoTvItem]) demoImg
        (Except.ok []) demoMoviesCodec).2.movies =
      (fetchOrPopulate none "flixhq:trending:movies" (60 * 60 * 3)
        (Except.ok ([] : List TrendingMovieItem)) demoMoviesCodec).trace :=
  (c1_main_trending_resolution "http://base" none (Except.ok [demoTvItem]) demoImg
      (Except.ok []) demoMoviesCodec).2.2 [demoTvItem] _ rfl rfl

/-- C8 counterexample: `/search` and `/main` have no `try`/`catch` — a
failure raised by the orchestrator is not answered with a 500 response
but escapes to the framework. -/
theorem c8_uncaught_failure_counterexample :
    (searchHandler "http://base" none demoSearchCodec "foo" none (Except.error ())).1 =
      HandlerOutcome.raise ∧
    (mainHandler "http://base" none (Except.error ()) demoImg
        (Except.ok []) demoMoviesCodec).1 = HandlerOutcome.raise := by decide

/-- C8 amended: `/info` and `/watch` catch every orchestrator or
projection failure at the handler boundary and answer it with status
500 and their own fixed generic message (no internal detail in the
body), but `/search` and `/main` have no such boundary: an orchestrator
failure there propagates uncaught to the framework. -/
theorem c8_error_boundaries (baseUrl : String) (store : Option Store)
    (codecI : Codec MediaInfo) (codecW : Codec StreamResult) (codecS : Codec SearchResult)
    (codecM : Codec (List TrendingMovieItem)) (oid e m sv : Option String)
    (prodI : Except Unit MediaInfo) (prodW : Except Unit StreamResult)
    (q : String) (p : Option String) (prodS : Except Unit SearchResult)
    (tvP : Except Unit (List TrendingTvItem)) (img : String → Except Unit String)
    (movP : Except Unit (List TrendingMovieItem)) :
    ((infoHandler baseUrl store codecI oid prodI).1 ≠ HandlerOutcome.raise ∧
      (∀ r, (infoHandler baseUrl store codecI oid prodI).1 = HandlerOutcome.respond r →
        r.status = 500 → r.body = Body.message infoErrMsg)) ∧
    ((watchHandler store codecW e m sv prodW).1 ≠ HandlerOutcome.raise ∧
      (∀ r, (watchHandler store codecW e m sv prodW).1 = HandlerOutcome.respond r →
        r.status = 500 → r.body = Body.message watchErrMsg)) ∧
    ((fetchOrPopulate store (searchKey q p) (60 * 60 * 6) prodS codecS).result =
        Except.error () →
      (searchHandler baseUrl store codecS q p prodS).1 = HandlerOutcome.raise) ∧
    (tvP = Except.error () →
      (mainHandler baseUrl store tvP img movP codecM).1 = HandlerOutcome.raise) := by
  refine ⟨⟨?_, ?_⟩, ⟨?_, ?_⟩, ?_, ?_⟩
  · cases oid with
    | none => simp [infoHandler]
    | some i =>
      cases hr : (fetchOrPopulate store (infoKey i) (60 * 60 * 3) prodI codecI).result with
      | error er => simp [infoHandler, hr]
      | ok res =>
        cases hp : formatInfo baseUrl res with
        | error er => simp [infoHandler, hr, hp]
        | ok r => simp [infoHandler, hr, hp]
  · intro r hresp h500
    cases oid with
    | none =>
      simp [infoHandler] at hresp
      rw [← hresp] at h500
      simp at h500
    | some i =>
      cases hr : (fetchOrPopulate store (infoKey i) (60 * 60 * 3) prodI codecI).result with
      | error er =>
        simp [infoHandler, hr] at hresp
        rw [← hresp]
      | ok res =>
        cases hp : formatInfo baseUrl res with
        | error er =>
          simp [infoHandler, hr, hp] at hresp
          rw [← hresp]
        | ok rr =>
          simp [infoHandler, hr, hp] at hresp
          rw [← hresp] at h500
          simp at h500
  · cases e with
    | none => simp [watchHandler]
    | some ev =>
      cases m with
      | none => simp [watchHandler]
      | some mv =>
        by_cases hg : jsTruthyStr sv = true ∧ jsInterp sv ∉ streamingServers
        · simp [watchHandler, hg]
        · cases hr : (fetchOrPopulate store (watchKey ev mv sv) (60 * 30) prodW codecW).result with
          | error er => simp [watchHandler, hg, hr]
          | ok res =>
            cases hs : selectPlaybackUrl res.sources with
            | none => simp [watchHandler, hg, hr, hs]
            | some u => simp [watchHandler, hg, hr, hs]
  · intro r hresp h500
    cases e with
    | none =>
      simp [watchHandler] at hresp
      rw [← hresp] at h500
      simp at h500
    | some ev =>
      cases m with
      | none =>
        simp [watchHandler] at hresp
        rw [← hresp] at h500
        simp at h500
      | some mv =>
        by_cases hg : jsTruthyStr sv = true ∧ jsInterp sv ∉ streamingServers
        · simp [watchHandler, hg] at hresp
          rw [← hresp] at h500
          simp at h500
        · cases hr : (fetchOrPopulate store (watchKey ev mv sv) (60 * 30) prodW codecW).result with
          | error er =>
            simp [watchHandler, hg, hr] at hresp
            rw [← hresp]
          | ok res =>
            cases hs : selectPlaybackUrl res.sources with
            | none =>
              simp [watchHandler, hg, hr, hs] at hresp
              rw [← hresp]
            | some u =>
              simp [watchHandler, hg, hr, hs] at hresp
              rw [← hresp] at h500
              simp at h500
  · intro hr
    simp [searchHandler, hr]
  · intro htv
    subst htv
    rfl

/-- Witness for C8 (amended): a concrete cache-disabled `/search`
request whose producer fails is raised to the framework, not answered. -/
theorem c8_error_boundaries_witness :
    (searchHandler "http://base" none demoSearchCodec "q" none (Except.error ())).1 =
      HandlerOutcome.raise :=
  (c8_error_boundaries "http://base" none demoInfoCodec demoStreamCodec demoSearchCodec
      demoMoviesCodec none none none none (Except.ok demoMovieInfo)
      (Except.ok demoStreamResult) "q" none (Except.error ())
      (Except.ok []) demoImg (Except.ok [])).2.2.1 rfl

/-- C9 counterexample: the trending-TV projection is not a function of
the record and base URL alone — two image fetches returning different
bytes for the same record yield different projected items, because
`getImage`'s base64 data URI is inlined into the output. -/
theorem c9_projection_io_counterexample :
    formatTvItem (fun u => Except.ok (getImage (fun _ => [0]) u)) "http://base" demoTvItem ≠
      formatTvItem (fun u => Except.ok (getImage (fun _ => [1]) u)) "http://base" demoTvItem := by
  have h1 : formatTvItem (fun u => Except.ok (getImage (fun _ => [0]) u)) "http://base" demoTvItem
      = Except.ok { id := "tv-1", title := "Show", image := "data:image/png;base64,AA==",
                    latest_season := "4", latest_episode := "9", type := "series",
                    info_url := "http://base/info?id=tv-1" } := rfl
  have h2 : formatTvItem (fun u => Except.ok (getImage (fun _ => [1]) u)) "http://base" demoTvItem
      = Except.ok { id := "tv-1", title := "Show", image := "data:image/png;base64,AQ==",
                    latest_season := "4", latest_episode := "9", type := "series",
                    info_url := "http://base/info?id=tv-1" } := rfl
  intro h
  rw [h1, h2] at h
  exact absurd (Except.ok.inj h) (by decide)

/-- C9 amended: every projector except the trending-TV one takes only
the record and the base URL; the trending-TV projection additionally
performs one image fetch per item, and its output is a deterministic
function of the record, the base URL and the fetch's result at the
item's image URL — two oracles agreeing there project identically. -/
theorem c9_projection_determinism (baseUrl : String) (item : TrendingTvItem)
    (img1 img2 : String → Except Unit String) (h : img1 item.image = img2 item.image) :
    formatTvItem img1 baseUrl item = formatTvItem img2 baseUrl item := by
  unfold formatTvItem
  rw [h]

/-- Witness for C9 (amended): two distinct image oracles that agree on
the sample item's image URL project it to the same formatted item. -/
theorem c9_projection_determinism_witness :
    formatTvItem (fun _ => Except.ok "pix") "http://base" demoTvItem =
      formatTvItem
        (fun u => if u = "http://img/1.png" then Except.ok "pix" else Except.error ())
        "http://base" demoTvItem :=
  c9_projection_determinism "http://base" demoTvItem
    (fun _ => Except.ok "pix")
    (fun u => if u = "http://img/1.png" then Except.ok "pix" else Except.error ())
    rfl

end Klarman
